import Mathlib

/-!
Verification of the Speed Camera API (`main.py`): a CRUD service over a single
`cameras` table. The store is modelled as a `List Camera` (the table rows in
insertion order); each HTTP handler becomes a pure function from its inputs and
the current store to the new store and a response, with HTTP errors as an
explicit `Err` value.
-/

namespace SpeedCamera

/-- A row of the `cameras` table (class `CameraDB` in `main.py`): integer primary
key `id` plus the five data columns, all `nullable=False`. -/
structure Camera where
  id : Nat
  cross_street_1 : String
  cross_street_2 : String
  zipcode : String
  speed_limit : Int
  direction : String
deriving DecidableEq, Repr

/-- The eight compass values accepted by the `validate_direction` field
validator of `CameraCreate` and `CameraUpdate`. -/
def validDirections : List String := ["N", "S", "E", "W", "NE", "NW", "SE", "SW"]

/-- The `min_length=1, max_length=100` constraint on a cross-street field
(pydantic `Field`). -/
def streetOk (s : String) : Bool := 1 ≤ s.length && s.length ≤ 100

/-- The zipcode constraint `^\d{5}$` (pydantic `Field` pattern): exactly five
digit characters. The regex class `\d` also covers
non-ASCII Unicode decimal digits, but every theorem below instantiates this
check at ASCII strings only, where `\d` coincides with `Char.isDigit`. -/
def zipPatternOk (z : String) : Bool := z.length == 5 && z.data.all Char.isDigit

/-- The `ge=5, le=85` constraint on `speed_limit` (pydantic `Field`). -/
def speedOk (n : Int) : Bool := 5 ≤ n && n ≤ 85

/-- The `validate_direction` check: membership in the eight compass values. -/
def directionOk (d : String) : Bool := validDirections.contains d

/-- Request body of `POST /cameras` (pydantic model `CameraCreate`). -/
structure CameraCreate where
  cross_street_1 : String
  cross_street_2 : String
  zipcode : String
  speed_limit : Int
  direction : String
deriving DecidableEq, Repr

/-- Conjunction of the `CameraCreate` field constraints; pydantic rejects the
request body with 422 when any fails. -/
def validCreate (c : CameraCreate) : Bool :=
  streetOk c.cross_street_1 && streetOk c.cross_street_2 && zipPatternOk c.zipcode
    && speedOk c.speed_limit && directionOk c.direction

/-- One optional field of `CameraUpdate`. Pydantic distinguishes a field absent
from the request body (`unset`) from one explicitly given as JSON `null`
(`setNull`): `model_dump(exclude_unset=True)` drops only the former. -/
inductive UpdField (α : Type) where
  | unset : UpdField α
  | setNull : UpdField α
  | setVal : α → UpdField α
deriving DecidableEq, Repr

/-- Request body of `PUT /cameras/{id}` (pydantic model `CameraUpdate`): every
field optional. -/
structure CameraUpdate where
  cross_street_1 : UpdField String
  cross_street_2 : UpdField String
  zipcode : UpdField String
  speed_limit : UpdField Int
  direction : UpdField String
deriving DecidableEq, Repr

/-- Pydantic applies a constraint on an `Optional[...]` field only to an actual
value; an absent field and an explicit `null` both pass (the `validate_direction`
validator of `CameraUpdate` likewise returns early on `None`). -/
def updFieldOk {α : Type} (p : α → Bool) : UpdField α → Bool
  | .unset => true
  | .setNull => true
  | .setVal v => p v

/-- Conjunction of the `CameraUpdate` field constraints. -/
def validUpdate (u : CameraUpdate) : Bool :=
  updFieldOk streetOk u.cross_street_1 && updFieldOk streetOk u.cross_street_2
    && updFieldOk zipPatternOk u.zipcode && updFieldOk speedOk u.speed_limit
    && updFieldOk directionOk u.direction

/-- Python `str.isdigit` on one character. Python accepts every Unicode
character of `Numeric_Type=Digit` or `Numeric_Type=Decimal`: the ASCII digits
plus many non-ASCII digit characters. This model is exact on ASCII (where the
only Python digits are `0`-`9`) and covers representative non-ASCII digit
classes — the superscripts `¹ ² ³` (U+00B9, U+00B2, U+00B3), the Arabic-Indic
digits (U+0660–U+0669) and the fullwidth digits (U+FF10–U+FF19) — but remains
an under-approximation on the rest of Unicode, so no theorem below asserts the
handlers' rejection branch outside ASCII arguments. -/
def pyIsDigit (c : Char) : Bool :=
  c.isDigit || c == '¹' || c == '²' || c == '³'
    || (0x660 ≤ c.toNat && c.toNat ≤ 0x669)
    || (0xFF10 ≤ c.toNat && c.toNat ≤ 0xFF19)

/-- Python `str.isdigit` on a string: nonempty and every character a digit.
Like `pyIsDigit` this is exact on ASCII strings and an under-approximation of
Python elsewhere; rejection-branch theorems restrict to ASCII accordingly. -/
def pyIsDigitStr (z : String) : Bool := !z.data.isEmpty && z.data.all pyIsDigit

/-- Semantics of the SQL `LIKE` operator (no `ESCAPE` clause), pattern first:
`%` matches any, possibly empty, run of characters, `_` matches any single
character, and every other pattern character matches only itself. -/
def sqlLike : List Char → List Char → Bool
  | [], t => t.isEmpty
  | p :: ps, t =>
    if p = '%' then t.tails.any fun u => sqlLike ps u
    else
      match t with
      | [] => false
      | c :: cs => (p == '_' || p == c) && sqlLike ps cs

/-- A string as its list of characters lowercased, the way SQLite `lower`
folds case (ASCII letters only, which is also all `Char.toLower` changes). -/
def lowerL (s : String) : List Char := s.data.map Char.toLower

/-- SQLAlchemy `col.ilike(pat)`: case-insensitive `LIKE`, i.e.
`lower(col) LIKE lower(pat)`. -/
def ilike (col pat : String) : Bool := sqlLike (lowerL pat) (lowerL col)

/-- SQLite assigns a fresh `INTEGER PRIMARY KEY` as one more than the largest
id in the table (`1` on an empty table). -/
def nextId (db : List Camera) : Nat := (db.map Camera.id).foldr max 0 + 1

/-- `db.query(CameraDB).filter(CameraDB.id == i).first()`. -/
def get_by_id (db : List Camera) (i : Nat) : Option Camera :=
  db.find? fun c => c.id == i

/-- Overwrite the first row carrying primary key `i`, as mutating the ORM
object fetched by `filter(CameraDB.id == i).first()` does. -/
def setFirstById : List Camera → Nat → Camera → List Camera
  | [], _, _ => []
  | c :: rest, i, new =>
    if c.id == i then new :: rest else c :: setFirstById rest i new

/-- `db.delete(obj)` on the row fetched by primary key: remove the first row
carrying that id. -/
def eraseFirstById : List Camera → Nat → List Camera
  | [], _ => []
  | c :: rest, i => if c.id == i then rest else c :: eraseFirstById rest i

/-- An HTTP error response: status code plus `detail` string. -/
structure Err where
  status : Nat
  detail : String
deriving DecidableEq, Repr

/-- FastAPI rejects a request failing declared parameter or body validation
with a 422 response before the handler body runs. -/
def validationErr : Err := ⟨422, "Unprocessable Entity"⟩

/-- Handler of GET `/cameras/zipcode/{zipcode}` (`get_cameras_by_zipcode` in
`main.py`): reject unless `zipcode.isdigit()` and the length is 5, then return
the rows whose `zipcode` column equals the argument. -/
def get_cameras_by_zipcode (zipcode : String) (db : List Camera) :
    Except Err (List Camera) :=
  if !pyIsDigitStr zipcode || zipcode.length != 5 then
    .error ⟨400, "Invalid zipcode format. Must be 5 digits."⟩
  else
    .ok (db.filter fun c => c.zipcode == zipcode)

/-- Handler of GET `/cameras/search` (`search_cameras_by_street` in `main.py`).
The declared `Query` constraints — `street` with `min_length=1` and `zipcode`
matching `^\d{5}$` — run before the body and yield 422 on failure; the body
re-checks the zipcode, then filters by zipcode and by `ilike` containment of
the street term in either cross street. -/
def search_cameras_by_street (street zipcode : String) (db : List Camera) :
    Except Err (List Camera) :=
  if street.length < 1 || !zipPatternOk zipcode then .error validationErr
  else if !pyIsDigitStr zipcode || zipcode.length != 5 then
    .error ⟨400, "Invalid zipcode format. Must be 5 digits."⟩
  else
    .ok ((db.filter fun c => c.zipcode == zipcode).filter fun c =>
      ilike c.cross_street_1 ("%" ++ street ++ "%")
        || ilike c.cross_street_2 ("%" ++ street ++ "%"))

/-- The duplicate-intersection message raised by `create_camera`. -/
def conflictMsg (c : CameraCreate) : String :=
  "Camera already exists at " ++ c.cross_street_1 ++ " and " ++ c.cross_street_2
    ++ " in zipcode " ++ c.zipcode

/-- Handler of POST `/cameras` (`create_camera` in `main.py`): pydantic body
validation, duplicate pre-check with exact `==` comparison on the three key
columns, then insert with a fresh id. Returns the new store and the response. -/
def create_camera (camera : CameraCreate) (db : List Camera) :
    List Camera × Except Err Camera :=
  if !validCreate camera then (db, .error validationErr)
  else
    match db.find? fun c =>
        c.cross_street_1 == camera.cross_street_1
          && c.cross_street_2 == camera.cross_street_2
          && c.zipcode == camera.zipcode with
    | some _ => (db, .error ⟨400, conflictMsg camera⟩)
    | none =>
      let cam : Camera :=
        ⟨nextId db, camera.cross_street_1, camera.cross_street_2, camera.zipcode,
          camera.speed_limit, camera.direction⟩
      (db ++ [cam], .ok cam)

/-- `setattr` outcome for one column: an absent field keeps the old value, a
present field overwrites it with its value — or with SQL `NULL` when it was an
explicit JSON `null` (kept by `model_dump(exclude_unset=True)`). -/
def appliedField {α : Type} : UpdField α → α → Option α
  | .unset, old => some old
  | .setNull, _ => none
  | .setVal v, _ => some v

/-- Handler of PUT `/cameras/{camera_id}` (`update_camera` in `main.py`).
`model_dump(exclude_unset=True)` keeps explicit nulls, so an applied column can
be `NULL`; committing such a row violates the `nullable=False` column
constraints and the request fails (IntegrityError, surfaced as a 500) with the
store unchanged. -/
def update_camera (camera_id : Nat) (camera : CameraUpdate) (db : List Camera) :
    List Camera × Except Err Camera :=
  if !validUpdate camera then (db, .error validationErr)
  else
    match get_by_id db camera_id with
    | none => (db, .error ⟨404, "Camera not found"⟩)
    | some old =>
      match appliedField camera.cross_street_1 old.cross_street_1,
          appliedField camera.cross_street_2 old.cross_street_2,
          appliedField camera.zipcode old.zipcode,
          appliedField camera.speed_limit old.speed_limit,
          appliedField camera.direction old.direction with
      | some s1, some s2, some z, some sp, some d =>
        let merged : Camera := ⟨old.id, s1, s2, z, sp, d⟩
        (setFirstById db camera_id merged, .ok merged)
      | _, _, _, _, _ =>
        (db, .error ⟨500, "IntegrityError: NOT NULL constraint failed"⟩)

/-- Handler of DELETE `/cameras/{camera_id}` (`delete_camera` in `main.py`). -/
def delete_camera (camera_id : Nat) (db : List Camera) :
    List Camera × Except Err String :=
  match get_by_id db camera_id with
  | none => (db, .error ⟨404, "Camera not found"⟩)
  | some _ => (eraseFirstById db camera_id, .ok "Camera deleted successfully")

/-- The record the spec describes for a partial update: the old record with
exactly the supplied fields replaced (meaningful when no supplied field is an
explicit null). -/
def mergeField {α : Type} : UpdField α → α → α
  | .setVal v, _ => v
  | _, old => old

/-- The old record with exactly the supplied fields of `u` replaced. -/
def mergeCamera (u : CameraUpdate) (old : Camera) : Camera :=
  ⟨old.id, mergeField u.cross_street_1 old.cross_street_1,
    mergeField u.cross_street_2 old.cross_street_2,
    mergeField u.zipcode old.zipcode,
    mergeField u.speed_limit old.speed_limit,
    mergeField u.direction old.direction⟩

/-- No field of the update request is an explicit JSON `null`. -/
def noExplicitNull (u : CameraUpdate) : Prop :=
  u.cross_street_1 ≠ .setNull ∧ u.cross_street_2 ≠ .setNull ∧ u.zipcode ≠ .setNull
    ∧ u.speed_limit ≠ .setNull ∧ u.direction ≠ .setNull

/-! ### Auxiliary lemmas -/

/-- A string's `length` is the length of its character list. -/
theorem string_length_data (s : String) : s.length = s.data.length := by
  cases s
  rfl

/-- `Char.toLower` never creates a SQL wildcard: lowering a character other
than `%` and `_` cannot yield `%` or `_`. -/
theorem toLower_ne_wildcard {c : Char} (h1 : c ≠ '%') (h2 : c ≠ '_') :
    Char.toLower c ≠ '%' ∧ Char.toLower c ≠ '_' := by
  have hdef : Char.toLower c =
      if c.toNat ≥ 65 ∧ c.toNat ≤ 90 then Char.ofNat (c.toNat + 32) else c := rfl
  rw [hdef]
  split
  · next h =>
    obtain ⟨h3, h4⟩ := h
    generalize c.toNat = n at h3 h4
    interval_cases n <;> exact ⟨by decide, by decide⟩
  · exact ⟨h1, h2⟩

/-- Unfolding `sqlLike` at a leading `%`. -/
theorem sqlLike_cons_pct (ps t : List Char) :
    sqlLike ('%' :: ps) t = t.tails.any fun u => sqlLike ps u := rfl

/-- Unfolding `sqlLike` at a literal pattern head against the empty text. -/
theorem sqlLike_lit_nil {a : Char} (ha : a ≠ '%') (ps : List Char) :
    sqlLike (a :: ps) [] = false := by
  simp only [sqlLike, if_neg ha]

/-- Unfolding `sqlLike` at a literal pattern head against a nonempty text. -/
theorem sqlLike_lit_cons {a : Char} (ha : a ≠ '%') (ps : List Char) (c : Char)
    (cs : List Char) :
    sqlLike (a :: ps) (c :: cs) = ((a == '_' || a == c) && sqlLike ps cs) := by
  simp only [sqlLike, if_neg ha]

/-- With a wildcard-free needle `s`, the SQL pattern `s ++ ['%']` matches a
text exactly when `s` is a prefix of it. -/
theorem sqlLike_append_pct {s : List Char} (hs : ∀ c ∈ s, c ≠ '%' ∧ c ≠ '_') :
    ∀ u : List Char, (sqlLike (s ++ ['%']) u = true ↔ s <+: u) := by
  induction s with
  | nil =>
    intro u
    rw [List.nil_append, sqlLike_cons_pct, List.any_eq_true]
    simp only [List.nil_prefix, iff_true]
    refine ⟨[], (List.mem_tails _ _).mpr List.nil_suffix, ?_⟩
    rfl
  | cons a s ih =>
    have ha := hs a (List.mem_cons_self a s)
    have hs' : ∀ c ∈ s, c ≠ '%' ∧ c ≠ '_' := fun c hc => hs c (List.mem_cons_of_mem a hc)
    intro u
    rw [List.cons_append]
    cases u with
    | nil =>
      rw [sqlLike_lit_nil ha.1]
      simp
    | cons c cs =>
      rw [sqlLike_lit_cons ha.1]
      have hbeq : (a == '_') = false := by
        simp [ha.2]
      simp only [hbeq, Bool.false_or, Bool.and_eq_true, beq_iff_eq, ih hs' cs,
        List.cons_prefix_cons]

/-- With a wildcard-free needle `s`, the SQL pattern `% s %` matches a text
exactly when `s` occurs inside it (unanchored containment). -/
theorem sqlLike_sandwich {s : List Char} (hs : ∀ c ∈ s, c ≠ '%' ∧ c ≠ '_')
    (t : List Char) :
    (sqlLike ('%' :: (s ++ ['%'])) t = true ↔ s <:+: t) := by
  rw [sqlLike_cons_pct, List.any_eq_true]
  constructor
  · rintro ⟨u, hu, hm⟩
    exact List.infix_iff_prefix_suffix.mpr
      ⟨u, (sqlLike_append_pct hs u).mp hm, (List.mem_tails _ _).mp hu⟩
  · intro hinf
    obtain ⟨u, hpre, hsuf⟩ := List.infix_iff_prefix_suffix.mp hinf
    exact ⟨u, (List.mem_tails _ _).mpr hsuf, (sqlLike_append_pct hs u).mpr hpre⟩

/-- `ilike` with the handler's `"%" ++ street ++ "%"` pattern is, for a street
term free of SQL wildcards, exactly case-insensitive substring containment. -/
theorem ilike_eq_contains (col street : String)
    (hW : ∀ c ∈ street.data, c ≠ '%' ∧ c ≠ '_') :
    (ilike col ("%" ++ street ++ "%") = true ↔ lowerL street <:+: lowerL col) := by
  have hpct : Char.toLower '%' = '%' := rfl
  have hlow : lowerL ("%" ++ street ++ "%") = '%' :: (lowerL street ++ ['%']) := by
    simp [lowerL, String.data_append, hpct]
  rw [ilike, hlow]
  apply sqlLike_sandwich
  intro c hc
  obtain ⟨c0, hc0, rfl⟩ := List.mem_map.mp hc
  exact toLower_ne_wildcard (hW c0 hc0).1 (hW c0 hc0).2

/-- On ASCII characters the model agrees exactly with Python's `str.isdigit`:
every listed non-ASCII digit class lies above U+0080, and the only ASCII
digits are `0`-`9`. -/
theorem pyIsDigit_eq_isDigit_of_ascii {c : Char} (h : c.toNat < 128) :
    pyIsDigit c = c.isDigit := by
  have h1 : (c == '¹') = false := by
    rw [beq_eq_false_iff_ne]
    intro hco
    rw [hco] at h
    exact absurd h (by decide)
  have h2 : (c == '²') = false := by
    rw [beq_eq_false_iff_ne]
    intro hco
    rw [hco] at h
    exact absurd h (by decide)
  have h3 : (c == '³') = false := by
    rw [beq_eq_false_iff_ne]
    intro hco
    rw [hco] at h
    exact absurd h (by decide)
  have d1 : decide (0x660 ≤ c.toNat) = false := decide_eq_false (by omega)
  have d2 : decide (0xFF10 ≤ c.toNat) = false := decide_eq_false (by omega)
  rw [pyIsDigit]
  simp [h1, h2, h3, d1, d2]

/-- A string of ASCII digits passes Python's `str.isdigit`. -/
theorem pyIsDigitStr_of_ascii {z : String} (h : z.data.all Char.isDigit = true)
    (hlen : z.length = 5) : pyIsDigitStr z = true := by
  rw [pyIsDigitStr]
  rw [string_length_data] at hlen
  have hne : z.data.isEmpty = false := by
    cases hd : z.data with
    | nil => rw [hd] at hlen; simp at hlen
    | cons a l => simp
  rw [hne]
  simp only [Bool.not_false, Bool.true_and, List.all_eq_true] at h ⊢
  intro c hc
  simp [pyIsDigit, h c hc]

/-! ### Claim C1: search semantics -/

/-- A sample stored record used in concrete checks. -/
def camA : Camera := ⟨1, "Main St", "First Ave", "12345", 25, "N"⟩

/-- C1 (amended): for every stored record and every search request whose
zipcode is five ASCII digits and whose street term is nonempty and contains no
SQL `LIKE` wildcard (`%` or `_`), the search succeeds and returns the record
exactly when the record's zipcode equals the request zipcode and the street
term, compared case-insensitively, is a substring (unanchored containment) of
the record's `cross_street_1` or `cross_street_2`. -/
theorem search_returns_iff_substring (db : List Camera) (street zipcode : String)
    (hS : street ≠ "")
    (hZlen : zipcode.length = 5) (hZdig : zipcode.data.all Char.isDigit = true)
    (hW : ∀ c ∈ street.data, c ≠ '%' ∧ c ≠ '_') :
    ∃ out, search_cameras_by_street street zipcode db = .ok out ∧
      ∀ cam, cam ∈ out ↔
        cam ∈ db ∧ cam.zipcode = zipcode ∧
          (lowerL street <:+: lowerL cam.cross_street_1
            ∨ lowerL street <:+: lowerL cam.cross_street_2) := by
  have hd : street.data ≠ [] := fun h => hS (String.ext h)
  have hSlen : ¬ street.length < 1 := by
    rw [string_length_data]
    have := List.length_pos.mpr hd
    omega
  have hzpat : zipPatternOk zipcode = true := by
    rw [zipPatternOk, hZlen, hZdig]
    rfl
  have hpd : pyIsDigitStr zipcode = true := pyIsDigitStr_of_ascii hZdig hZlen
  rw [search_cameras_by_street]
  have hg1 : (decide (street.length < 1) || !zipPatternOk zipcode) = false := by
    simp [hSlen, hzpat]
  have hg2 : (!pyIsDigitStr zipcode || zipcode.length != 5) = false := by
    simp [hpd, hZlen]
  rw [hg1, hg2]
  simp only [Bool.false_eq_true, if_false]
  refine ⟨_, rfl, ?_⟩
  intro cam
  simp only [List.mem_filter, beq_iff_eq, Bool.or_eq_true,
    ilike_eq_contains _ street hW, and_assoc]

/-- C1 is false as stated: with street term `_` (nonempty) and the five-digit
zipcode `12345`, the search returns the stored record — the SQL wildcard `_`
passes into the `ilike` pattern and matches any character — although `_` is not
a substring of either cross street. -/
theorem search_underscore_cex :
    search_cameras_by_street "_" "12345" [camA] = .ok [camA]
      ∧ ("_" : String) ≠ ""
      ∧ ("12345" : String).length = 5
      ∧ ("12345" : String).data.all Char.isDigit = true
      ∧ ¬ lowerL "_" <:+: lowerL camA.cross_street_1
      ∧ ¬ lowerL "_" <:+: lowerL camA.cross_street_2 :=
  ⟨rfl, by decide, rfl, rfl, by decide, by decide⟩

/-- Concrete instantiation of `search_returns_iff_substring`: searching for
`main` in zipcode `12345`. -/
theorem search_returns_iff_substring_witness :
    ∃ out, search_cameras_by_street "main" "12345" [camA] = .ok out ∧
      ∀ cam, cam ∈ out ↔
        cam ∈ [camA] ∧ cam.zipcode = "12345" ∧
          (lowerL "main" <:+: lowerL cam.cross_street_1
            ∨ lowerL "main" <:+: lowerL cam.cross_street_2) :=
  search_returns_iff_substring [camA] "main" "12345" (by decide) rfl rfl (by decide)

/-! ### Create-path helper lemmas -/

/-- The row inserted by a successful create: fresh id plus the request fields. -/
def insertedCam (inp : CameraCreate) (db : List Camera) : Camera :=
  ⟨nextId db, inp.cross_street_1, inp.cross_street_2, inp.zipcode,
    inp.speed_limit, inp.direction⟩

/-- A valid create whose key triple matches some stored row exactly fails with
the conflict error and leaves the store unchanged. -/
theorem create_camera_of_match (db : List Camera) (inp : CameraCreate)
    (hv : validCreate inp = true)
    (hdup : ∃ c ∈ db, c.cross_street_1 = inp.cross_street_1
      ∧ c.cross_street_2 = inp.cross_street_2 ∧ c.zipcode = inp.zipcode) :
    create_camera inp db = (db, .error ⟨400, conflictMsg inp⟩) := by
  simp only [create_camera, hv, Bool.not_true, Bool.false_eq_true, if_false]
  obtain ⟨c, hc, h1, h2, h3⟩ := hdup
  have hsome : (db.find? fun c => c.cross_street_1 == inp.cross_street_1
      && c.cross_street_2 == inp.cross_street_2 && c.zipcode == inp.zipcode).isSome := by
    rw [List.find?_isSome]
    exact ⟨c, hc, by simp [h1, h2, h3]⟩
  obtain ⟨x, hx⟩ := Option.isSome_iff_exists.mp hsome
  rw [hx]

/-- A valid create with no exact key match inserts the fresh row at the end of
the table and returns it. -/
theorem create_camera_of_no_match (db : List Camera) (inp : CameraCreate)
    (hv : validCreate inp = true)
    (hno : ∀ c ∈ db, ¬(c.cross_street_1 = inp.cross_street_1
      ∧ c.cross_street_2 = inp.cross_street_2 ∧ c.zipcode = inp.zipcode)) :
    create_camera inp db = (db ++ [insertedCam inp db], .ok (insertedCam inp db)) := by
  simp only [create_camera, hv, Bool.not_true, Bool.false_eq_true, if_false]
  have hnone : (db.find? fun c => c.cross_street_1 == inp.cross_street_1
      && c.cross_street_2 == inp.cross_street_2 && c.zipcode == inp.zipcode) = none := by
    rw [List.find?_eq_none]
    intro c hc
    simp only [Bool.and_eq_true, beq_iff_eq]
    intro h
    exact hno c hc ⟨h.1.1, h.1.2, h.2⟩
  rw [hnone]
  rfl

/-! ### Claim C2: duplicate create conflicts and persists nothing -/

/-- C2: when a record with the same `cross_street_1`, `cross_street_2` and
`zipcode` already exists, a valid create request carrying exactly those three
values fails with the 400 conflict error naming the colliding streets and
zipcode, and the store is unchanged — no second record is persisted. -/
theorem create_duplicate_conflict (db : List Camera) (inp : CameraCreate)
    (hv : validCreate inp = true)
    (hdup : ∃ c ∈ db, c.cross_street_1 = inp.cross_street_1
      ∧ c.cross_street_2 = inp.cross_street_2 ∧ c.zipcode = inp.zipcode) :
    create_camera inp db =
      (db, .error ⟨400, "Camera already exists at " ++ inp.cross_street_1 ++ " and "
        ++ inp.cross_street_2 ++ " in zipcode " ++ inp.zipcode⟩) :=
  create_camera_of_match db inp hv hdup

/-- Concrete instantiation of `create_duplicate_conflict`: re-creating the
stored intersection. -/
theorem create_duplicate_conflict_witness :
    create_camera ⟨"Main St", "First Ave", "12345", 30, "S"⟩ [camA] =
      ([camA], .error ⟨400, "Camera already exists at Main St and First Ave in zipcode 12345"⟩) :=
  create_duplicate_conflict [camA] ⟨"Main St", "First Ave", "12345", 30, "S"⟩
    (by decide) ⟨camA, by decide, rfl, rfl, rfl⟩

/-! ### Claim C5: the duplicate check is exact and case-sensitive -/

/-- C5: a valid create request raises the duplicate conflict if and only if
some stored record agrees with it on all three of `cross_street_1`,
`cross_street_2` and `zipcode` under exact, case-sensitive string equality;
with no such exact match — in particular when every stored record differs in
letter case — the new record is inserted. -/
theorem create_duplicate_check_exact (db : List Camera) (inp : CameraCreate)
    (hv : validCreate inp = true) :
    ((create_camera inp db).2 = .error ⟨400, conflictMsg inp⟩ ↔
      ∃ c ∈ db, c.cross_street_1 = inp.cross_street_1
        ∧ c.cross_street_2 = inp.cross_street_2 ∧ c.zipcode = inp.zipcode)
    ∧ ((∀ c ∈ db, ¬(c.cross_street_1 = inp.cross_street_1
        ∧ c.cross_street_2 = inp.cross_street_2 ∧ c.zipcode = inp.zipcode)) →
      create_camera inp db = (db ++ [insertedCam inp db], .ok (insertedCam inp db))) := by
  constructor
  · constructor
    · intro herr
      by_contra hno
      push_neg at hno
      have := create_camera_of_no_match db inp hv fun c hc h => hno c hc h.1 h.2.1 h.2.2
      rw [this] at herr
      exact Except.noConfusion herr
    · intro hdup
      rw [create_camera_of_match db inp hv hdup]
  · exact create_camera_of_no_match db inp hv

/-- Concrete instantiation of `create_duplicate_check_exact`: the stored record
differs from the request in letter case only, and the create succeeds. -/
theorem create_duplicate_check_exact_witness :
    ((create_camera ⟨"MAIN ST", "FIRST AVE", "12345", 30, "S"⟩ [camA]).2 =
        .error ⟨400, conflictMsg ⟨"MAIN ST", "FIRST AVE", "12345", 30, "S"⟩⟩ ↔
      ∃ c ∈ [camA], c.cross_street_1 = "MAIN ST"
        ∧ c.cross_street_2 = "FIRST AVE" ∧ c.zipcode = "12345")
    ∧ ((∀ c ∈ [camA], ¬(c.cross_street_1 = "MAIN ST"
        ∧ c.cross_street_2 = "FIRST AVE" ∧ c.zipcode = "12345")) →
      create_camera ⟨"MAIN ST", "FIRST AVE", "12345", 30, "S"⟩ [camA] =
        ([camA] ++ [insertedCam ⟨"MAIN ST", "FIRST AVE", "12345", 30, "S"⟩ [camA]],
         .ok (insertedCam ⟨"MAIN ST", "FIRST AVE", "12345", 30, "S"⟩ [camA]))) :=
  create_duplicate_check_exact [camA] ⟨"MAIN ST", "FIRST AVE", "12345", 30, "S"⟩ (by decide)

/-! ### Claim C10: the duplicate key is an ordered triple -/

/-- C10: with a record at `(A, B, Z)` stored and no record at `(B, A, Z)`, a
valid create request whose streets are the same two names swapped is not
reported as a conflict: a second record for the intersection is inserted. -/
theorem create_swapped_streets_inserted (db : List Camera) (A B Z : String)
    (sl : Int) (dir : String)
    (hv : validCreate ⟨B, A, Z, sl, dir⟩ = true)
    (_hmem : ∃ c ∈ db, c.cross_street_1 = A ∧ c.cross_street_2 = B ∧ c.zipcode = Z)
    (hnoswap : ∀ c ∈ db, ¬(c.cross_street_1 = B ∧ c.cross_street_2 = A ∧ c.zipcode = Z)) :
    create_camera ⟨B, A, Z, sl, dir⟩ db =
      (db ++ [insertedCam ⟨B, A, Z, sl, dir⟩ db], .ok (insertedCam ⟨B, A, Z, sl, dir⟩ db)) :=
  create_camera_of_no_match db ⟨B, A, Z, sl, dir⟩ hv hnoswap

/-- Concrete instantiation of `create_swapped_streets_inserted`: the streets of
the stored record swapped. -/
theorem create_swapped_streets_inserted_witness :
    create_camera ⟨"First Ave", "Main St", "12345", 30, "S"⟩ [camA] =
      ([camA] ++ [insertedCam ⟨"First Ave", "Main St", "12345", 30, "S"⟩ [camA]],
       .ok (insertedCam ⟨"First Ave", "Main St", "12345", 30, "S"⟩ [camA])) :=
  create_swapped_streets_inserted [camA] "Main St" "First Ave" "12345" 30 "S"
    (by decide) ⟨camA, by decide, rfl, rfl, rfl⟩ (by decide)

/-! ### Claim C4: field validation boundaries -/

/-- C4: the create-side field validation accepts speed limits 5 and 85 and
rejects 4 and 86 (the range is boundary-inclusive), rejects the four-digit
zipcode `1234`, rejects direction `NNE`, and accepts exactly the eight
enumerated compass directions; the same outcomes hold for whole request
bodies through `validCreate`. -/
theorem create_validation_boundaries :
    speedOk 5 = true ∧ speedOk 85 = true ∧ speedOk 4 = false ∧ speedOk 86 = false
      ∧ zipPatternOk "1234" = false
      ∧ directionOk "NNE" = false
      ∧ (∀ d : String, directionOk d = true ↔ d ∈ validDirections)
      ∧ validCreate ⟨"Main St", "First Ave", "12345", 5, "N"⟩ = true
      ∧ validCreate ⟨"Main St", "First Ave", "12345", 85, "N"⟩ = true
      ∧ validCreate ⟨"Main St", "First Ave", "12345", 4, "N"⟩ = false
      ∧ validCreate ⟨"Main St", "First Ave", "12345", 86, "N"⟩ = false
      ∧ validCreate ⟨"Main St", "First Ave", "1234", 25, "N"⟩ = false
      ∧ validCreate ⟨"Main St", "First Ave", "12345", 25, "NNE"⟩ = false := by
  refine ⟨by decide, by decide, by decide, by decide, by decide, by decide, ?_,
    by decide, by decide, by decide, by decide, by decide, by decide⟩
  intro d
  simp [directionOk, validDirections]

/-! ### Claim C6: list by zipcode -/

/-- C6 (amended): for every zipcode of five ASCII digits, the list-by-zipcode
handler returns exactly the stored records whose zipcode equals it — the empty
list, never an error, when none match; an all-ASCII argument that is not
exactly five ASCII digits is rejected with the 400 validation error before the
store is consulted. The guard is Python's `str.isdigit`, which also accepts
non-ASCII Unicode digit characters, so not every argument outside the
five-ASCII-digit set is rejected: a five-character string of non-ASCII digits
passes the guard and returns the empty list. -/
theorem list_by_zipcode_exact (zipcode : String) (db : List Camera) :
    (zipcode.length = 5 ∧ zipcode.data.all Char.isDigit = true →
      ∃ out, get_cameras_by_zipcode zipcode db = .ok out ∧
        ∀ cam, cam ∈ out ↔ cam ∈ db ∧ cam.zipcode = zipcode)
    ∧ ((∀ c ∈ zipcode.data, c.toNat < 128) →
      ¬(zipcode.length = 5 ∧ zipcode.data.all Char.isDigit = true) →
      get_cameras_by_zipcode zipcode db =
        .error ⟨400, "Invalid zipcode format. Must be 5 digits."⟩) := by
  constructor
  · rintro ⟨hlen, hdig⟩
    have hpd : pyIsDigitStr zipcode = true := pyIsDigitStr_of_ascii hdig hlen
    rw [get_cameras_by_zipcode]
    have hg : (!pyIsDigitStr zipcode || zipcode.length != 5) = false := by
      simp [hpd, hlen]
    rw [hg]
    simp only [Bool.false_eq_true, if_false]
    refine ⟨_, rfl, ?_⟩
    intro cam
    simp [List.mem_filter]
  · intro hascii hbad
    rw [get_cameras_by_zipcode]
    have hg : (!pyIsDigitStr zipcode || zipcode.length != 5) = true := by
      by_cases hlen : zipcode.length = 5
      · have hdig : zipcode.data.all Char.isDigit ≠ true := fun h => hbad ⟨hlen, h⟩
        have hex : ¬ ∀ c ∈ zipcode.data, Char.isDigit c = true := by
          rw [← List.all_eq_true]
          exact hdig
        push_neg at hex
        obtain ⟨c, hc, hcd'⟩ := hex
        have hcd : Char.isDigit c = false := Bool.eq_false_iff.mpr hcd'
        have hfalse : pyIsDigitStr zipcode = false := by
          apply Bool.eq_false_iff.mpr
          intro htrue
          rw [pyIsDigitStr, Bool.and_eq_true, List.all_eq_true] at htrue
          have hp := htrue.2 c hc
          rw [pyIsDigit_eq_isDigit_of_ascii (hascii c hc), hcd] at hp
          exact absurd hp (by decide)
        simp [hfalse]
      · simp [hlen]
    rw [hg]
    rfl

/-- C6 is false as stated: `²²²²²` (five superscript-two characters) is not a
string of five ASCII digits, yet Python's `str.isdigit` accepts it, so the
handler consults the store and returns the empty list instead of rejecting the
argument with a validation error. -/
theorem list_by_zipcode_unicode_cex :
    get_cameras_by_zipcode "²²²²²" [camA] = .ok []
      ∧ ("²²²²²" : String).data.all Char.isDigit = false
      ∧ ("²²²²²" : String).length = 5 :=
  ⟨rfl, by decide, rfl⟩

/-- Concrete instantiation of `list_by_zipcode_exact`: the matching zipcode and
a malformed one. -/
theorem list_by_zipcode_exact_witness :
    (∃ out, get_cameras_by_zipcode "12345" [camA] = .ok out ∧
      ∀ cam, cam ∈ out ↔ cam ∈ [camA] ∧ cam.zipcode = "12345")
    ∧ get_cameras_by_zipcode "1234" [camA] =
        .error ⟨400, "Invalid zipcode format. Must be 5 digits."⟩ :=
  ⟨(list_by_zipcode_exact "12345" [camA]).1 (by exact ⟨rfl, rfl⟩),
   (list_by_zipcode_exact "1234" [camA]).2 (by decide) (by decide)⟩

/-! ### Claim C7: create then get round trip -/

/-- Every stored id is bounded by the running maximum over the table. -/
theorem id_le_fold (db : List Camera) :
    ∀ c ∈ db, c.id ≤ (db.map Camera.id).foldr max 0 := by
  induction db with
  | nil => intro c hc; cases hc
  | cons a l ih =>
    intro c hc
    rcases List.mem_cons.mp hc with rfl | hc
    · simp only [List.map_cons, List.foldr_cons]
      exact le_max_left _ _
    · simp only [List.map_cons, List.foldr_cons]
      exact le_trans (ih c hc) (le_max_right _ _)

/-- The freshly assigned id is not present in the store. -/
theorem get_by_id_nextId (db : List Camera) : get_by_id db (nextId db) = none := by
  rw [get_by_id, List.find?_eq_none]
  intro c hc
  simp only [beq_iff_eq]
  intro heq
  have h2 := id_le_fold db c hc
  rw [heq, nextId] at h2
  omega

/-- C7: when a valid create succeeds with record `cam`, looking `cam.id` up in
the resulting store returns `cam`, whose id is the system-assigned fresh id and
whose remaining fields equal the request fields. -/
theorem create_then_get (db : List Camera) (inp : CameraCreate) (cam : Camera)
    (hv : validCreate inp = true)
    (hok : (create_camera inp db).2 = .ok cam) :
    get_by_id (create_camera inp db).1 cam.id = some cam
      ∧ cam.id = nextId db
      ∧ cam.cross_street_1 = inp.cross_street_1
      ∧ cam.cross_street_2 = inp.cross_street_2
      ∧ cam.zipcode = inp.zipcode
      ∧ cam.speed_limit = inp.speed_limit
      ∧ cam.direction = inp.direction := by
  by_cases hdup : ∃ c ∈ db, c.cross_street_1 = inp.cross_street_1
      ∧ c.cross_street_2 = inp.cross_street_2 ∧ c.zipcode = inp.zipcode
  · rw [create_camera_of_match db inp hv hdup] at hok
    exact absurd hok (by simp)
  · have hno : ∀ c ∈ db, ¬(c.cross_street_1 = inp.cross_street_1
        ∧ c.cross_street_2 = inp.cross_street_2 ∧ c.zipcode = inp.zipcode) :=
      fun c hc h => hdup ⟨c, hc, h⟩
    rw [create_camera_of_no_match db inp hv hno] at hok ⊢
    replace hok : Except.ok (insertedCam inp db) = Except.ok cam := hok
    injection hok with hcam
    subst hcam
    refine ⟨?_, rfl, rfl, rfl, rfl, rfl, rfl⟩
    show get_by_id (db ++ [insertedCam inp db]) (insertedCam inp db).id = _
    rw [get_by_id, List.find?_append]
    have h1 : (db.find? fun c => c.id == (insertedCam inp db).id) = none := by
      have h0 := get_by_id_nextId db
      rw [get_by_id] at h0
      exact h0
    rw [h1, Option.none_or]
    simp [List.find?]

/-- Concrete instantiation of `create_then_get`: creating into an empty store
and fetching id 1. -/
theorem create_then_get_witness :
    get_by_id (create_camera ⟨"Main St", "First Ave", "12345", 25, "N"⟩ []).1
        (⟨1, "Main St", "First Ave", "12345", 25, "N"⟩ : Camera).id =
      some ⟨1, "Main St", "First Ave", "12345", 25, "N"⟩
      ∧ (⟨1, "Main St", "First Ave", "12345", 25, "N"⟩ : Camera).id = nextId []
      ∧ (⟨1, "Main St", "First Ave", "12345", 25, "N"⟩ : Camera).cross_street_1 = "Main St"
      ∧ (⟨1, "Main St", "First Ave", "12345", 25, "N"⟩ : Camera).cross_street_2 = "First Ave"
      ∧ (⟨1, "Main St", "First Ave", "12345", 25, "N"⟩ : Camera).zipcode = "12345"
      ∧ (⟨1, "Main St", "First Ave", "12345", 25, "N"⟩ : Camera).speed_limit = 25
      ∧ (⟨1, "Main St", "First Ave", "12345", 25, "N"⟩ : Camera).direction = "N" :=
  create_then_get [] ⟨"Main St", "First Ave", "12345", 25, "N"⟩
    ⟨1, "Main St", "First Ave", "12345", 25, "N"⟩ (by decide) rfl

/-! ### Claim C8: delete semantics -/

/-- Members of the erased table are members of the original table. -/
theorem mem_of_mem_eraseFirstById {db : List Camera} {i : Nat} {c : Camera}
    (h : c ∈ eraseFirstById db i) : c ∈ db := by
  induction db with
  | nil => simp [eraseFirstById] at h
  | cons a l ih =>
    rw [eraseFirstById] at h
    by_cases ha : (a.id == i) = true
    · rw [if_pos ha] at h
      exact List.mem_cons_of_mem a h
    · rw [if_neg ha] at h
      rcases List.mem_cons.mp h with rfl | h
      · exact List.mem_cons_self _ _
      · exact List.mem_cons_of_mem a (ih h)

/-- With distinct primary keys, erasing the row found for id `i` removes
exactly that row. -/
theorem mem_eraseFirstById_iff {db : List Camera} (hnd : (db.map Camera.id).Nodup)
    {i : Nat} {old : Camera} (hfind : get_by_id db i = some old) :
    ∀ c, c ∈ eraseFirstById db i ↔ c ∈ db ∧ c ≠ old := by
  induction db with
  | nil => simp [get_by_id] at hfind
  | cons a l ih =>
    obtain ⟨hna, hndl⟩ := List.nodup_cons.mp hnd
    rw [get_by_id] at hfind
    intro c
    rw [eraseFirstById]
    by_cases ha : (a.id == i) = true
    · rw [if_pos ha]
      rw [List.find?_cons_of_pos (p := fun c => c.id == i) l ha] at hfind
      injection hfind with holda
      subst holda
      constructor
      · intro hc
        refine ⟨List.mem_cons_of_mem _ hc, fun hceq => ?_⟩
        subst hceq
        exact hna (List.mem_map_of_mem Camera.id hc)
      · rintro ⟨hmem, hne⟩
        rcases List.mem_cons.mp hmem with rfl | hmem
        · exact absurd rfl hne
        · exact hmem
    · rw [if_neg ha]
      rw [List.find?_cons_of_neg (p := fun c => c.id == i) l ha] at hfind
      have hfind' : get_by_id l i = some old := hfind
      have hone : old.id = i := by
        have := List.find?_some hfind
        simpa [beq_iff_eq] using this
      have hane : a ≠ old := by
        intro haeq
        apply ha
        rw [haeq, hone]
        exact beq_self_eq_true i
      constructor
      · intro hc
        rcases List.mem_cons.mp hc with rfl | hc
        · exact ⟨List.mem_cons_self _ _, hane⟩
        · have := (ih hndl hfind' c).mp hc
          exact ⟨List.mem_cons_of_mem a this.1, this.2⟩
      · rintro ⟨hmem, hne⟩
        rcases List.mem_cons.mp hmem with rfl | hmem
        · exact List.mem_cons_self _ _
        · exact List.mem_cons_of_mem a ((ih hndl hfind' c).mpr ⟨hmem, hne⟩)

/-- With distinct primary keys, a lookup after erasing the found row fails. -/
theorem get_by_id_erase_none {db : List Camera} (hnd : (db.map Camera.id).Nodup)
    {i : Nat} {old : Camera} (hfind : get_by_id db i = some old) :
    get_by_id (eraseFirstById db i) i = none := by
  have hold_mem : old ∈ db := List.mem_of_find?_eq_some hfind
  have hold_id : old.id = i := by
    have := List.find?_some hfind
    simpa [beq_iff_eq] using this
  rw [get_by_id, List.find?_eq_none]
  intro c hc
  simp only [beq_iff_eq]
  intro hci
  have hmem := (mem_eraseFirstById_iff hnd hfind c).mp hc
  exact hmem.2 (List.inj_on_of_nodup_map hnd hmem.1 hold_mem (by rw [hci, hold_id]))

/-- C8: with distinct primary keys in the store, deleting an absent id fails
with the 404 error and leaves the store unchanged, while deleting a present id
removes exactly the record carrying it, returns the success message, and a
subsequent lookup of that id finds no record. -/
theorem delete_removes_exactly (db : List Camera) (cid : Nat)
    (hnd : (db.map Camera.id).Nodup) :
    (get_by_id db cid = none →
      delete_camera cid db = (db, .error ⟨404, "Camera not found"⟩))
    ∧ (∀ old, get_by_id db cid = some old →
        delete_camera cid db = (eraseFirstById db cid, .ok "Camera deleted successfully")
          ∧ (∀ c, c ∈ eraseFirstById db cid ↔ c ∈ db ∧ c ≠ old)
          ∧ get_by_id (eraseFirstById db cid) cid = none) := by
  constructor
  · intro h
    simp only [delete_camera, h]
  · intro old h
    refine ⟨?_, mem_eraseFirstById_iff hnd h, get_by_id_erase_none hnd h⟩
    simp only [delete_camera, h]

/-- Concrete instantiation of `delete_removes_exactly`: deleting the present
id 1 and the absent id 2. -/
theorem delete_removes_exactly_witness :
    delete_camera 1 [camA] = (eraseFirstById [camA] 1, .ok "Camera deleted successfully")
      ∧ get_by_id (eraseFirstById [camA] 1) 1 = none
      ∧ delete_camera 2 [camA] = ([camA], .error ⟨404, "Camera not found"⟩) :=
  ⟨((delete_removes_exactly [camA] 1 (by decide)).2 camA rfl).1,
   ((delete_removes_exactly [camA] 1 (by decide)).2 camA rfl).2.2,
   (delete_removes_exactly [camA] 2 (by decide)).1 rfl⟩

/-! ### Claim C3: partial update semantics -/

/-- A supplied value or an absent field always commits: `setattr` leaves a
non-null column. -/
theorem appliedField_of_ne_null {α : Type} {u : UpdField α} (h : u ≠ .setNull) (old : α) :
    appliedField u old = some (mergeField u old) := by
  cases u with
  | unset => rfl
  | setNull => exact absurd rfl h
  | setVal v => rfl

/-- C3: a valid partial update whose supplied fields are actual values applies
exactly the supplied fields to the stored row — the id is kept, every
unsupplied field keeps its old value and every supplied field takes the new
one — and the merged record is returned; an update addressed to an id not in
the store fails with the 404 error and leaves the store unchanged. -/
theorem update_partial_fields (db : List Camera) (cid : Nat) (u : CameraUpdate)
    (hv : validUpdate u = true) (hn : noExplicitNull u) :
    (∀ old, get_by_id db cid = some old →
      update_camera cid u db =
        (setFirstById db cid (mergeCamera u old), .ok (mergeCamera u old))
        ∧ (mergeCamera u old).id = old.id
        ∧ (u.cross_street_1 = .unset → (mergeCamera u old).cross_street_1 = old.cross_street_1)
        ∧ (∀ v, u.cross_street_1 = .setVal v → (mergeCamera u old).cross_street_1 = v)
        ∧ (u.cross_street_2 = .unset → (mergeCamera u old).cross_street_2 = old.cross_street_2)
        ∧ (∀ v, u.cross_street_2 = .setVal v → (mergeCamera u old).cross_street_2 = v)
        ∧ (u.zipcode = .unset → (mergeCamera u old).zipcode = old.zipcode)
        ∧ (∀ v, u.zipcode = .setVal v → (mergeCamera u old).zipcode = v)
        ∧ (u.speed_limit = .unset → (mergeCamera u old).speed_limit = old.speed_limit)
        ∧ (∀ v, u.speed_limit = .setVal v → (mergeCamera u old).speed_limit = v)
        ∧ (u.direction = .unset → (mergeCamera u old).direction = old.direction)
        ∧ (∀ v, u.direction = .setVal v → (mergeCamera u old).direction = v))
    ∧ (get_by_id db cid = none →
      update_camera cid u db = (db, .error ⟨404, "Camera not found"⟩)) := by
  obtain ⟨h1, h2, h3, h4, h5⟩ := hn
  constructor
  · intro old hold
    refine ⟨?_, rfl,
      fun h => by simp only [mergeCamera, h, mergeField],
      fun v h => by simp only [mergeCamera, h, mergeField],
      fun h => by simp only [mergeCamera, h, mergeField],
      fun v h => by simp only [mergeCamera, h, mergeField],
      fun h => by simp only [mergeCamera, h, mergeField],
      fun v h => by simp only [mergeCamera, h, mergeField],
      fun h => by simp only [mergeCamera, h, mergeField],
      fun v h => by simp only [mergeCamera, h, mergeField],
      fun h => by simp only [mergeCamera, h, mergeField],
      fun v h => by simp only [mergeCamera, h, mergeField]⟩
    simp only [update_camera, hv, Bool.not_true, Bool.false_eq_true, if_false, hold]
    rw [appliedField_of_ne_null h1, appliedField_of_ne_null h2, appliedField_of_ne_null h3,
      appliedField_of_ne_null h4, appliedField_of_ne_null h5]
    rfl
  · intro hnone
    simp only [update_camera, hv, Bool.not_true, Bool.false_eq_true, if_false, hnone]

/-- Concrete instantiation of `update_partial_fields`: updating only the speed
limit of the stored record. -/
theorem update_partial_fields_witness :
    update_camera 1 ⟨.unset, .unset, .unset, .setVal 30, .unset⟩ [camA] =
      (setFirstById [camA] 1 (mergeCamera ⟨.unset, .unset, .unset, .setVal 30, .unset⟩ camA),
       .ok (mergeCamera ⟨.unset, .unset, .unset, .setVal 30, .unset⟩ camA)) :=
  ((update_partial_fields [camA] 1 ⟨.unset, .unset, .unset, .setVal 30, .unset⟩
      (by decide) ⟨by decide, by decide, by decide, by decide, by decide⟩).1 camA rfl).1

/-! ### Claim C9: explicit nulls pass validation and are applied -/

/-- C9: for every update request that explicitly supplies JSON `null` for one
of the five optional fields — whichever of them it is — that field's
validation check accepts the null (explicit nulls are never a reason for
rejection: even the request all of whose fields are explicit nulls passes
validation outright), and the null is kept in the set of applied changes
(`model_dump(exclude_unset=True)`): the column is written as SQL `NULL`
rather than left at the old value — although every Camera column is
`nullable=False` in storage. -/
theorem update_explicit_null_applied (u : CameraUpdate) (old : Camera) :
    (u.cross_street_1 = .setNull →
      updFieldOk streetOk u.cross_street_1 = true
        ∧ appliedField u.cross_street_1 old.cross_street_1 = none
        ∧ appliedField u.cross_street_1 old.cross_street_1 ≠ some old.cross_street_1)
    ∧ (u.cross_street_2 = .setNull →
      updFieldOk streetOk u.cross_street_2 = true
        ∧ appliedField u.cross_street_2 old.cross_street_2 = none
        ∧ appliedField u.cross_street_2 old.cross_street_2 ≠ some old.cross_street_2)
    ∧ (u.zipcode = .setNull →
      updFieldOk zipPatternOk u.zipcode = true
        ∧ appliedField u.zipcode old.zipcode = none
        ∧ appliedField u.zipcode old.zipcode ≠ some old.zipcode)
    ∧ (u.speed_limit = .setNull →
      updFieldOk speedOk u.speed_limit = true
        ∧ appliedField u.speed_limit old.speed_limit = none
        ∧ appliedField u.speed_limit old.speed_limit ≠ some old.speed_limit)
    ∧ (u.direction = .setNull →
      updFieldOk directionOk u.direction = true
        ∧ appliedField u.direction old.direction = none
        ∧ appliedField u.direction old.direction ≠ some old.direction)
    ∧ validUpdate ⟨.setNull, .setNull, .setNull, .setNull, .setNull⟩ = true := by
  refine ⟨?_, ?_, ?_, ?_, ?_, rfl⟩
  all_goals
    intro h
    rw [h]
    exact ⟨rfl, rfl, by simp [appliedField]⟩

/-- Concrete instantiation of `update_explicit_null_applied`: a request whose
only set field is an explicit null for `direction`. -/
theorem update_explicit_null_applied_witness :
    updFieldOk directionOk (CameraUpdate.mk .unset .unset .unset .unset .setNull).direction = true
      ∧ appliedField (CameraUpdate.mk .unset .unset .unset .unset .setNull).direction
          camA.direction = none
      ∧ appliedField (CameraUpdate.mk .unset .unset .unset .unset .setNull).direction
          camA.direction ≠ some camA.direction :=
  (update_explicit_null_applied ⟨.unset, .unset, .unset, .unset, .setNull⟩ camA).2.2.2.2.1 rfl

end SpeedCamera
